import Mathlib

/-!
Verification of the request-admission layer of a URL-shortening service:
the rate limiter (local in-memory fixed-window counter and the remote
Upstash-backed counter), the standardized API response envelope, and the
CORS boundary.  The definitions below are shallow embeddings of
`src/lib/rate-limit.ts`, `src/lib/api-response.ts` and `src/lib/cors.ts`.
Timestamps are natural numbers (milliseconds, as from `Date.now()`);
JavaScript `Map` stores are embedded as functions `String → Option _`.
-/

namespace LinkShortener

/-! ## Rate limiter data model (`src/lib/rate-limit.ts`) -/

/-- `RateLimitEntry`: one per identifier in the in-memory store.
`resetTime` is the absolute timestamp (ms) at which the window resets. -/
structure RateLimitEntry where
  count : Nat
  resetTime : Nat
deriving DecidableEq, Repr

/-- `RateLimitResult`: the value returned by `limit()`.  `success` is the
`allowed` flag of the contract; `remaining` can in principle go negative
in JavaScript arithmetic, so it is an `Int`; `resetTime` is optional. -/
structure RateLimitResult where
  success : Bool
  remaining : Int
  resetTime : Option Nat
deriving DecidableEq, Repr

/-- The `InMemoryRateLimiter` state: its private `Map` store plus the
two read-only configuration fields. -/
structure InMemoryRateLimiter where
  store : String → Option RateLimitEntry
  maxRequests : Nat
  windowSeconds : Nat

/-- `this.store.set(identifier, e)` on the in-memory limiter. -/
def InMemoryRateLimiter.setEntry (l : InMemoryRateLimiter) (identifier : String)
    (e : RateLimitEntry) : InMemoryRateLimiter :=
  ⟨fun k => if k = identifier then some e else l.store k, l.maxRequests, l.windowSeconds⟩

/-- `InMemoryRateLimiter.limit(identifier)` at time `now`.  Mirrors the
source: if no entry exists or `now > entry.resetTime`, a fresh entry
`{count: 1, resetTime: now + windowMs}` is stored and the call is allowed
with `maxRequests - 1` remaining; otherwise if `entry.count >= maxRequests`
the call is denied with the stored `resetTime` reported; otherwise the
count is incremented and the call is allowed. -/
def InMemoryRateLimiter.limit (l : InMemoryRateLimiter) (identifier : String)
    (now : Nat) : RateLimitResult × InMemoryRateLimiter :=
  let windowMs := l.windowSeconds * 1000
  match l.store identifier with
  | none =>
      (⟨true, (l.maxRequests : Int) - 1, none⟩,
       l.setEntry identifier ⟨1, now + windowMs⟩)
  | some entry =>
      if now > entry.resetTime then
        (⟨true, (l.maxRequests : Int) - 1, none⟩,
         l.setEntry identifier ⟨1, now + windowMs⟩)
      else if entry.count ≥ l.maxRequests then
        (⟨false, 0, some entry.resetTime⟩, l)
      else
        (⟨true, (l.maxRequests : Int) - (entry.count + 1), none⟩,
         l.setEntry identifier ⟨entry.count + 1, entry.resetTime⟩)

/-- Run a sequence of `limit` calls for one identifier at the given times,
collecting the results. -/
def runCalls (l : InMemoryRateLimiter) (identifier : String) :
    List Nat → List RateLimitResult × InMemoryRateLimiter
  | [] => ([], l)
  | t :: ts =>
      let step := l.limit identifier t
      let rest := runCalls step.2 identifier ts
      (step.1 :: rest.1, rest.2)

/-- Run a sequence of `limit` calls for possibly different identifiers,
tagging each result with the identifier that made the call. -/
def runMixed (l : InMemoryRateLimiter) :
    List (String × Nat) → List (String × RateLimitResult) × InMemoryRateLimiter
  | [] => ([], l)
  | c :: cs =>
      let step := l.limit c.1 c.2
      let rest := runMixed step.2 cs
      ((c.1, step.1) :: rest.1, rest.2)

/-- The subsequence of a call list addressed to one identifier. -/
def callsFor (identifier : String) : List (String × Nat) → List (String × Nat)
  | [] => []
  | c :: cs => if c.1 = identifier then c :: callsFor identifier cs else callsFor identifier cs

/-- The subsequence of tagged results belonging to one identifier. -/
def resultsFor (identifier : String) : List (String × RateLimitResult) → List RateLimitResult
  | [] => []
  | p :: ps => if p.1 = identifier then p.2 :: resultsFor identifier ps else resultsFor identifier ps

example :
    (runCalls ⟨fun _ => none, 2, 60⟩ "a" [1000, 1001, 1002]).1 =
      [⟨true, 1, none⟩, ⟨true, 0, none⟩, ⟨false, 0, some 61000⟩] := by decide

/-- The results of `n` further in-window calls when the stored entry is
`{count := c, resetTime := R}` and the configured maximum is `m`: once the
count reaches `m` every call is denied with `resetTime R`; below `m` each
call increments the count and is allowed. -/
def windowResults (m c R : Nat) : Nat → List RateLimitResult
  | 0 => []
  | n + 1 =>
      if m ≤ c then ⟨false, 0, some R⟩ :: windowResults m c R n
      else ⟨true, (m : Int) - (c + 1), none⟩ :: windowResults m (c + 1) R n

theorem runCalls_inWindow (l : InMemoryRateLimiter) (identifier : String) (c R : Nat)
    (hstore : l.store identifier = some ⟨c, R⟩)
    (ts : List Nat) (hts : ∀ t ∈ ts, t ≤ R) :
    (runCalls l identifier ts).1 = windowResults l.maxRequests c R ts.length := by
  induction ts generalizing l c with
  | nil => simp [runCalls, windowResults]
  | cons t ts ih =>
      have hle : t ≤ R := hts t (by simp)
      have hngt : ¬ t > R := by omega
      by_cases hc : c ≥ l.maxRequests
      · have hstep : l.limit identifier t = (⟨false, 0, some R⟩, l) := by
          simp [InMemoryRateLimiter.limit, hstore, hngt, hc]
        have htail := ih l c hstore (fun u hu => hts u (by simp [hu]))
        simp [runCalls, hstep, windowResults, hc, htail]
      · have hstep : l.limit identifier t =
            (⟨true, (l.maxRequests : Int) - (c + 1), none⟩,
             l.setEntry identifier ⟨c + 1, R⟩) := by
          simp [InMemoryRateLimiter.limit, hstore, hngt, hc]
        have hstore1 : (l.setEntry identifier ⟨c + 1, R⟩).store identifier =
            some ⟨c + 1, R⟩ := by
          simp [InMemoryRateLimiter.setEntry]
        have htail := ih (l.setEntry identifier ⟨c + 1, R⟩) (c + 1) hstore1
          (fun u hu => hts u (by simp [hu]))
        have hmax : (l.setEntry identifier ⟨c + 1, R⟩).maxRequests = l.maxRequests := rfl
        simp [runCalls, hstep, windowResults, hc, hmax ▸ htail]

theorem windowResults_allowed (m c R n k : Nat) (hk : k < n) (hck : c + k < m) :
    (windowResults m c R n)[k]? = some ⟨true, (m : Int) - (c + k + 1), none⟩ := by
  induction n generalizing c k with
  | zero => omega
  | succ n ih =>
      cases k with
      | zero =>
          have hcm : ¬ m ≤ c := by omega
          simp [windowResults, hcm]
      | succ k =>
          have hcm : ¬ m ≤ c := by omega
          have := ih (c + 1) k (by omega) (by omega)
          simp only [windowResults, if_neg hcm, List.getElem?_cons_succ, this]
          have harith : ((m : Int) - (↑(c + 1) + ↑k + 1)) = (m : Int) - (↑c + ↑(k + 1) + 1) := by
            push_cast; ring
          rw [harith]

theorem windowResults_denied (m c R n k : Nat) (hk : k < n) (hck : m ≤ c + k) :
    (windowResults m c R n)[k]? = some ⟨false, 0, some R⟩ := by
  induction n generalizing c k with
  | zero => omega
  | succ n ih =>
      by_cases hcm : m ≤ c
      · cases k with
        | zero => simp [windowResults, hcm]
        | succ k =>
            have := ih c k (by omega) (by omega)
            simp only [windowResults, if_pos hcm, List.getElem?_cons_succ, this]
      · cases k with
        | zero => omega
        | succ k =>
            have := ih (c + 1) k (by omega) (by omega)
            simp only [windowResults, if_neg hcm, List.getElem?_cons_succ, this]

theorem limit_store_other (l : InMemoryRateLimiter) (identifier k : String) (t : Nat)
    (h : k ≠ identifier) : (l.limit identifier t).2.store k = l.store k := by
  rcases hstore : l.store identifier with _ | e
  · simp [InMemoryRateLimiter.limit, hstore, InMemoryRateLimiter.setEntry, h]
  · by_cases h1 : t > e.resetTime
    · simp [InMemoryRateLimiter.limit, hstore, h1, InMemoryRateLimiter.setEntry, h]
    · by_cases h2 : e.count ≥ l.maxRequests
      · simp [InMemoryRateLimiter.limit, hstore, h1, h2]
      · simp [InMemoryRateLimiter.limit, hstore, h1, h2, InMemoryRateLimiter.setEntry, h]

theorem limit_maxRequests (l : InMemoryRateLimiter) (identifier : String) (t : Nat) :
    (l.limit identifier t).2.maxRequests = l.maxRequests := by
  rcases hstore : l.store identifier with _ | e
  · simp [InMemoryRateLimiter.limit, hstore, InMemoryRateLimiter.setEntry]
  · by_cases h1 : t > e.resetTime
    · simp [InMemoryRateLimiter.limit, hstore, h1, InMemoryRateLimiter.setEntry]
    · by_cases h2 : e.count ≥ l.maxRequests
      · simp [InMemoryRateLimiter.limit, hstore, h1, h2]
      · simp [InMemoryRateLimiter.limit, hstore, h1, h2, InMemoryRateLimiter.setEntry]

theorem limit_windowSeconds (l : InMemoryRateLimiter) (identifier : String) (t : Nat) :
    (l.limit identifier t).2.windowSeconds = l.windowSeconds := by
  rcases hstore : l.store identifier with _ | e
  · simp [InMemoryRateLimiter.limit, hstore, InMemoryRateLimiter.setEntry]
  · by_cases h1 : t > e.resetTime
    · simp [InMemoryRateLimiter.limit, hstore, h1, InMemoryRateLimiter.setEntry]
    · by_cases h2 : e.count ≥ l.maxRequests
      · simp [InMemoryRateLimiter.limit, hstore, h1, h2]
      · simp [InMemoryRateLimiter.limit, hstore, h1, h2, InMemoryRateLimiter.setEntry]

theorem limit_congr (l m : InMemoryRateLimiter) (identifier : String) (t : Nat)
    (hstore : l.store identifier = m.store identifier)
    (hmax : l.maxRequests = m.maxRequests) (hwin : l.windowSeconds = m.windowSeconds) :
    (l.limit identifier t).1 = (m.limit identifier t).1 ∧
    (l.limit identifier t).2.store identifier = (m.limit identifier t).2.store identifier := by
  rcases hsm : m.store identifier with _ | e
  · have hsl : l.store identifier = none := by rw [hstore, hsm]
    simp [InMemoryRateLimiter.limit, hsl, hsm, hmax, hwin, InMemoryRateLimiter.setEntry]
  · have hsl : l.store identifier = some e := by rw [hstore, hsm]
    by_cases h1 : t > e.resetTime
    · simp [InMemoryRateLimiter.limit, hsl, hsm, h1, hmax, hwin, InMemoryRateLimiter.setEntry]
    · by_cases h2 : e.count ≥ l.maxRequests
      · have h2m : e.count ≥ m.maxRequests := hmax ▸ h2
        refine ⟨?_, ?_⟩ <;>
          simp [InMemoryRateLimiter.limit, hsl, hsm, h1, h2, h2m, hstore]
      · have h2m : ¬ e.count ≥ m.maxRequests := hmax ▸ h2
        refine ⟨?_, ?_⟩ <;>
          simp [InMemoryRateLimiter.limit, hsl, hsm, h1, h2, h2m, hmax,
            InMemoryRateLimiter.setEntry]

theorem runMixed_project (id2 : String) (calls : List (String × Nat))
    (l m : InMemoryRateLimiter)
    (hstore : l.store id2 = m.store id2)
    (hmax : l.maxRequests = m.maxRequests) (hwin : l.windowSeconds = m.windowSeconds) :
    resultsFor id2 (runMixed l calls).1 = resultsFor id2 (runMixed m (callsFor id2 calls)).1 ∧
    (runMixed l calls).2.store id2 = (runMixed m (callsFor id2 calls)).2.store id2 := by
  induction calls generalizing l m with
  | nil => exact ⟨rfl, hstore⟩
  | cons c cs ih =>
      by_cases hc : c.1 = id2
      · have hcongr := limit_congr l m c.1 c.2 (hc ▸ hstore) hmax hwin
        have ihnext := ih (l.limit c.1 c.2).2 (m.limit c.1 c.2).2
          (hc ▸ hcongr.2)
          ((limit_maxRequests l c.1 c.2).trans (hmax.trans (limit_maxRequests m c.1 c.2).symm))
          ((limit_windowSeconds l c.1 c.2).trans (hwin.trans (limit_windowSeconds m c.1 c.2).symm))
        constructor
        · simp only [callsFor, if_pos hc, runMixed, resultsFor, if_pos hc]
          rw [hcongr.1, ihnext.1]
        · simp only [callsFor, if_pos hc, runMixed]
          exact ihnext.2
      · have hframe : (l.limit c.1 c.2).2.store id2 = l.store id2 :=
          limit_store_other l c.1 id2 c.2 (fun he => hc he.symm)
        have ihnext := ih (l.limit c.1 c.2).2 m (hframe.trans hstore)
          ((limit_maxRequests l c.1 c.2).trans hmax)
          ((limit_windowSeconds l c.1 c.2).trans hwin)
        constructor
        · simp only [callsFor, if_neg hc, runMixed, resultsFor, if_neg hc]
          exact ihnext.1
        · simp only [callsFor, if_neg hc, runMixed]
          exact ihnext.2

/-- C1: starting with no entry for `identifier`, the first `N = maxRequests`
calls within the window opened by the first call are all allowed with
`remaining = N - (call number)`, strictly decreasing to `0` on the Nth
call, and the (N+1)th call in the same window is denied with
`remaining = 0`. -/
theorem C1_local_first_window (l : InMemoryRateLimiter) (identifier : String)
    (hN : 0 < l.maxRequests) (hstore : l.store identifier = none)
    (t0 : Nat) (ts : List Nat) (hlen : ts.length = l.maxRequests)
    (hts : ∀ t ∈ ts, t < t0 + l.windowSeconds * 1000) :
    (∀ k, k < l.maxRequests →
      ((runCalls l identifier (t0 :: ts)).1)[k]? =
        some ⟨true, (l.maxRequests : Int) - (k + 1), none⟩) ∧
    ((runCalls l identifier (t0 :: ts)).1)[l.maxRequests]? =
      some ⟨false, 0, some (t0 + l.windowSeconds * 1000)⟩ := by
  have hfirst : l.limit identifier t0 =
      (⟨true, (l.maxRequests : Int) - 1, none⟩,
       l.setEntry identifier ⟨1, t0 + l.windowSeconds * 1000⟩) := by
    simp [InMemoryRateLimiter.limit, hstore]
  have hstore1 : (l.setEntry identifier ⟨1, t0 + l.windowSeconds * 1000⟩).store identifier =
      some ⟨1, t0 + l.windowSeconds * 1000⟩ := by
    simp [InMemoryRateLimiter.setEntry]
  have htail := runCalls_inWindow (l.setEntry identifier ⟨1, t0 + l.windowSeconds * 1000⟩)
    identifier 1 (t0 + l.windowSeconds * 1000) hstore1 ts
    (fun u hu => by have := hts u hu; omega)
  have hrun : (runCalls l identifier (t0 :: ts)).1 =
      ⟨true, (l.maxRequests : Int) - 1, none⟩ ::
        windowResults l.maxRequests 1 (t0 + l.windowSeconds * 1000) ts.length := by
    simp only [runCalls, hfirst]
    exact congrArg _ htail
  constructor
  · intro k hk
    cases k with
    | zero => simp [hrun]
    | succ j =>
        rw [hrun, List.getElem?_cons_succ,
          windowResults_allowed l.maxRequests 1 (t0 + l.windowSeconds * 1000) ts.length j
            (by omega) (by omega)]
        simp only [Option.some.injEq, RateLimitResult.mk.injEq, true_and, and_true]
        push_cast
        ring
  · obtain ⟨n, hn⟩ : ∃ n, l.maxRequests = n + 1 := ⟨l.maxRequests - 1, by omega⟩
    rw [hrun, hn, List.getElem?_cons_succ,
      windowResults_denied (n + 1) 1 (t0 + l.windowSeconds * 1000) ts.length n
        (by omega) (by omega)]

theorem C1_witness :
    (∀ k, k < 2 →
      ((runCalls ⟨fun _ => none, 2, 60⟩ "a" (1000 :: [1001, 1002])).1)[k]? =
        some ⟨true, ((2 : Nat) : Int) - (k + 1), none⟩) ∧
    ((runCalls ⟨fun _ => none, 2, 60⟩ "a" (1000 :: [1001, 1002])).1)[2]? =
      some ⟨false, 0, some (1000 + 60 * 1000)⟩ :=
  C1_local_first_window ⟨fun _ => none, 2, 60⟩ "a" (by decide) rfl 1000 [1001, 1002] rfl
    (by decide)

/-- C3 counterexample: the claim says a call at time `t` with
`windowResetAt ≤ t` (in particular `t = windowResetAt` exactly) resets the
entry and is allowed with `maxRequests - 1` remaining.  The code resets
only when `t > windowResetAt` strictly: with `maxRequests = 2`, a stored
entry `{count := 1, resetTime := 1000}` and a call at `t = 1000`, the code
increments the old entry and returns `remaining = 0`, not `1`. -/
theorem C3_counterexample :
    ¬ (∀ (l : InMemoryRateLimiter) (identifier : String) (t : Nat) (e : RateLimitEntry),
        l.store identifier = some e → e.resetTime ≤ t →
        (l.limit identifier t).1 = ⟨true, (l.maxRequests : Int) - 1, none⟩ ∧
        (l.limit identifier t).2.store identifier =
          some ⟨1, t + l.windowSeconds * 1000⟩) := by
  intro h
  have := h ⟨fun k => if k = "a" then some ⟨1, 1000⟩ else none, 2, 60⟩ "a" 1000
    ⟨1, 1000⟩ rfl (by decide)
  exact absurd this.1 (by decide)

/-- C3 (amended): if the stored entry's `windowResetAt` is strictly less
than the call time `t`, the entry is replaced by
`{count := 1, windowResetAt := t + windowDuration}` and the call is
allowed with `maxRequests - 1` remaining.  At `t = windowResetAt` exactly
the old entry is still in force. -/
theorem C3_local_window_reset (l : InMemoryRateLimiter) (identifier : String) (t : Nat)
    (e : RateLimitEntry) (hstore : l.store identifier = some e) (ht : e.resetTime < t) :
    (l.limit identifier t).1 = ⟨true, (l.maxRequests : Int) - 1, none⟩ ∧
    (l.limit identifier t).2.store identifier = some ⟨1, t + l.windowSeconds * 1000⟩ := by
  have h1 : t > e.resetTime := ht
  simp [InMemoryRateLimiter.limit, hstore, h1, InMemoryRateLimiter.setEntry]

theorem C3_witness :
    ((⟨fun k => if k = "a" then some ⟨2, 1000⟩ else none, 2, 60⟩ :
        InMemoryRateLimiter).limit "a" 1001).1 =
      ⟨true, ((2 : Nat) : Int) - 1, none⟩ ∧
    ((⟨fun k => if k = "a" then some ⟨2, 1000⟩ else none, 2, 60⟩ :
        InMemoryRateLimiter).limit "a" 1001).2.store "a" =
      some ⟨1, 1001 + 60 * 1000⟩ :=
  C3_local_window_reset ⟨fun k => if k = "a" then some ⟨2, 1000⟩ else none, 2, 60⟩
    "a" 1001 ⟨2, 1000⟩ rfl (by decide)

/-- C8: a call for `id1 ≠ id2` leaves the stored entry for `id2` unchanged,
and in any mixed call sequence the results returned for `id2` (and the
final entry stored for `id2`) are exactly those of running only the `id2`
calls. -/
theorem C8_local_isolation (l : InMemoryRateLimiter) (id1 id2 : String)
    (hne : id1 ≠ id2) (t : Nat) (calls : List (String × Nat)) :
    (l.limit id1 t).2.store id2 = l.store id2 ∧
    resultsFor id2 (runMixed l calls).1 =
      resultsFor id2 (runMixed l (callsFor id2 calls)).1 ∧
    (runMixed l calls).2.store id2 = (runMixed l (callsFor id2 calls)).2.store id2 := by
  refine ⟨limit_store_other l id1 id2 t (Ne.symm hne), ?_, ?_⟩
  · exact (runMixed_project id2 calls l l rfl rfl rfl).1
  · exact (runMixed_project id2 calls l l rfl rfl rfl).2

theorem C8_witness :
    (((⟨fun _ => none, 2, 60⟩ : InMemoryRateLimiter).limit "a" 5).2.store "b" =
      (⟨fun _ => none, 2, 60⟩ : InMemoryRateLimiter).store "b") ∧
    resultsFor "b" (runMixed ⟨fun _ => none, 2, 60⟩ [("a", 5), ("b", 6), ("a", 7)]).1 =
      resultsFor "b"
        (runMixed ⟨fun _ => none, 2, 60⟩ (callsFor "b" [("a", 5), ("b", 6), ("a", 7)])).1 ∧
    (runMixed ⟨fun _ => none, 2, 60⟩ [("a", 5), ("b", 6), ("a", 7)]).2.store "b" =
      (runMixed ⟨fun _ => none, 2, 60⟩ (callsFor "b" [("a", 5), ("b", 6), ("a", 7)])).2.store "b" :=
  C8_local_isolation ⟨fun _ => none, 2, 60⟩ "a" "b" (by decide) 5 [("a", 5), ("b", 6), ("a", 7)]

/-- C9: when the local limiter denies a call, the limiter state is
completely unchanged (the denied call neither increments the count nor
moves `windowResetAt`), and the reported `resetTime` is exactly the stored
entry's `windowResetAt`. -/
theorem C9_denied_no_mutation (l : InMemoryRateLimiter) (identifier : String) (t : Nat)
    (hdenied : (l.limit identifier t).1.success = false) :
    (l.limit identifier t).2 = l ∧
    ∃ e, l.store identifier = some e ∧
      (l.limit identifier t).1 = ⟨false, 0, some e.resetTime⟩ := by
  rcases hstore : l.store identifier with _ | e
  · simp [InMemoryRateLimiter.limit, hstore] at hdenied
  · by_cases h1 : t > e.resetTime
    · simp [InMemoryRateLimiter.limit, hstore, h1] at hdenied
    · by_cases h2 : e.count ≥ l.maxRequests
      · refine ⟨?_, e, ?_, ?_⟩ <;>
          simp [InMemoryRateLimiter.limit, hstore, h1, h2]
      · simp [InMemoryRateLimiter.limit, hstore, h1, h2] at hdenied

theorem C9_witness :
    ((⟨fun k => if k = "a" then some ⟨2, 1000⟩ else none, 2, 60⟩ :
        InMemoryRateLimiter).limit "a" 500).2 =
      (⟨fun k => if k = "a" then some ⟨2, 1000⟩ else none, 2, 60⟩ :
        InMemoryRateLimiter) ∧
    ∃ e, (⟨fun k => if k = "a" then some ⟨2, 1000⟩ else none, 2, 60⟩ :
        InMemoryRateLimiter).store "a" = some e ∧
      ((⟨fun k => if k = "a" then some ⟨2, 1000⟩ else none, 2, 60⟩ :
          InMemoryRateLimiter).limit "a" 500).1 = ⟨false, 0, some e.resetTime⟩ :=
  C9_denied_no_mutation ⟨fun k => if k = "a" then some ⟨2, 1000⟩ else none, 2, 60⟩
    "a" 500 (by decide)

/-! ## Remote (Upstash) rate limiter (`src/lib/rate-limit.ts`) -/

/-- The outcome of an HTTP `fetch` as observed by the Upstash limiter:
`thrown` models a rejected promise or any exception raised while awaiting
the call (network/storage failure); `response ok result` models a
completed response with its `ok` status flag and the integer `result`
field of its JSON body. -/
inductive FetchOutcome where
  | thrown : FetchOutcome
  | response (ok : Bool) (result : Int) : FetchOutcome
deriving DecidableEq, Repr

/-- The `UpstashRateLimiter` configuration (the URL and token play no role
in the returned value). -/
structure UpstashRateLimiter where
  maxRequests : Nat
  windowSeconds : Nat
deriving DecidableEq, Repr

/-- `UpstashRateLimiter.limit(identifier)`, parametrized by the outcomes
of the two `fetch` calls it may make.  A thrown increment call is caught
by the surrounding try/catch and mapped to
`{success: true, remaining: maxRequests}`; a non-ok increment response
throws `Redis error` and is caught the same way; the expire call's
outcome is swallowed by `.catch(() => {})` and never affects the result.
Above `maxRequests` the call is denied with `remaining = 0` and no
`resetTime`; otherwise it is allowed with `maxRequests - count`
remaining. -/
def UpstashRateLimiter.limit (l : UpstashRateLimiter)
    (incrOutcome expireOutcome : FetchOutcome) : RateLimitResult :=
  match incrOutcome with
  | .thrown => ⟨true, (l.maxRequests : Int), none⟩
  | .response ok count =>
      if !ok then ⟨true, (l.maxRequests : Int), none⟩
      else if count > (l.maxRequests : Int) then ⟨false, 0, none⟩
      else ⟨true, (l.maxRequests : Int) - count, none⟩

/-- C2: any network/storage failure of the increment call — a thrown
fetch or a non-ok HTTP response — is caught and mapped to exactly
`{allowed: true, remaining: maxRequests}`, whatever the expire call
does. -/
theorem C2_upstash_fail_open (l : UpstashRateLimiter)
    (incrOutcome expireOutcome : FetchOutcome)
    (herr : incrOutcome = .thrown ∨ ∃ r, incrOutcome = .response false r) :
    l.limit incrOutcome expireOutcome = ⟨true, (l.maxRequests : Int), none⟩ := by
  rcases herr with h | ⟨r, h⟩ <;> subst h <;> simp [UpstashRateLimiter.limit]

theorem C2_witness :
    UpstashRateLimiter.limit ⟨10, 60⟩ .thrown .thrown =
      ⟨true, (((10 : Nat)) : Int), none⟩ ∧
    UpstashRateLimiter.limit ⟨10, 60⟩ (.response false 3) .thrown =
      ⟨true, (((10 : Nat)) : Int), none⟩ :=
  ⟨C2_upstash_fail_open ⟨10, 60⟩ .thrown .thrown (Or.inl rfl),
   C2_upstash_fail_open ⟨10, 60⟩ (.response false 3) .thrown (Or.inr ⟨3, rfl⟩)⟩

/-- C6: for a successful increment response, a post-increment count above
`maxRequests` yields `{allowed: false, remaining: 0}` with no `resetTime`;
otherwise `{allowed: true, remaining: maxRequests - count}`. -/
theorem C6_upstash_threshold (l : UpstashRateLimiter) (count : Int)
    (expireOutcome : FetchOutcome) :
    ((l.maxRequests : Int) < count →
      l.limit (.response true count) expireOutcome = ⟨false, 0, none⟩) ∧
    (count ≤ (l.maxRequests : Int) →
      l.limit (.response true count) expireOutcome =
        ⟨true, (l.maxRequests : Int) - count, none⟩) := by
  constructor
  · intro h
    simp [UpstashRateLimiter.limit, h]
  · intro h
    have h2 : ¬ (l.maxRequests : Int) < count := not_lt.mpr h
    simp [UpstashRateLimiter.limit, h2]

theorem C6_witness :
    UpstashRateLimiter.limit ⟨10, 60⟩ (.response true 11) .thrown = ⟨false, 0, none⟩ ∧
    UpstashRateLimiter.limit ⟨10, 60⟩ (.response true 3) .thrown =
      ⟨true, (((10 : Nat)) : Int) - 3, none⟩ :=
  ⟨(C6_upstash_threshold ⟨10, 60⟩ 11 .thrown).1 (by decide),
   (C6_upstash_threshold ⟨10, 60⟩ 3 .thrown).2 (by decide)⟩

/-! ## Response envelope (`src/lib/api-response.ts`) -/

/-- The JSON body produced by the response helpers: a `none` field is
absent from the serialized object. -/
structure ApiResponse (α : Type) where
  success : Bool
  data : Option α
  error : Option String
  code : Option String
deriving DecidableEq, Repr

/-- `NextResponse.json(body, {status})` as produced by the helpers. -/
structure JsonResponse (α : Type) where
  body : ApiResponse α
  status : Nat
deriving DecidableEq, Repr

/-- JavaScript truthiness of the optional `code` string argument:
`undefined` and the empty string are falsy, so `...(code && {code})`
spreads nothing for them. -/
def truthyCode : Option String → Bool
  | none => false
  | some s => s != ""

/-- `apiSuccess(data, status)`: `{success: true, data}`. -/
def apiSuccess {α : Type} (data : α) (status : Nat) : JsonResponse α :=
  ⟨⟨true, some data, none, none⟩, status⟩

/-- `apiError(message, status, code?)`: `{success: false, error: message,
...(code && {code})}`. -/
def apiError (α : Type) (message : String) (status : Nat) (code : Option String) :
    JsonResponse α :=
  ⟨⟨false, none, some message, if truthyCode code then code else none⟩, status⟩

/-- C4: the success constructor yields `{success: true}` with `data`
present and no `error`/`code`; the error constructor yields
`{success: false}` with `error` present and no `data`; no envelope from
either constructor carries both `data` and `error`; `code` can only be
present on error envelopes. -/
theorem C4_envelope_invariant {α : Type} (d : α) (s1 : Nat) (msg : String) (s2 : Nat)
    (code : Option String) :
    (apiSuccess d s1).body = ⟨true, some d, none, none⟩ ∧
    (apiError α msg s2 code).body.success = false ∧
    (apiError α msg s2 code).body.error = some msg ∧
    (apiError α msg s2 code).body.data = none ∧
    ¬((apiSuccess d s1).body.data.isSome ∧ (apiSuccess d s1).body.error.isSome) ∧
    ¬((apiError α msg s2 code).body.data.isSome ∧
        (apiError α msg s2 code).body.error.isSome) ∧
    ((apiError α msg s2 code).body.code.isSome →
        (apiError α msg s2 code).body.success = false) ∧
    (apiSuccess d s1).body.code = none := by
  refine ⟨rfl, rfl, rfl, rfl, ?_, ?_, fun _ => rfl, rfl⟩ <;> simp [apiSuccess, apiError]

theorem C4_witness :
    (apiSuccess (37 : Nat) 201).body = ⟨true, some 37, none, none⟩ ∧
    (apiError Nat "boom" 409 (some "CODE")).body.success = false ∧
    (apiError Nat "boom" 409 (some "CODE")).body.error = some "boom" ∧
    (apiError Nat "boom" 409 (some "CODE")).body.data = none ∧
    ¬((apiSuccess (37 : Nat) 201).body.data.isSome ∧
        (apiSuccess (37 : Nat) 201).body.error.isSome) ∧
    ¬((apiError Nat "boom" 409 (some "CODE")).body.data.isSome ∧
        (apiError Nat "boom" 409 (some "CODE")).body.error.isSome) ∧
    ((apiError Nat "boom" 409 (some "CODE")).body.code.isSome →
        (apiError Nat "boom" 409 (some "CODE")).body.success = false) ∧
    (apiSuccess (37 : Nat) 201).body.code = none :=
  C4_envelope_invariant 37 201 "boom" 409 (some "CODE")

/-- C10: passing the empty string as `code` produces the very same
envelope as passing no code at all — the `code` field is spread in only
when the argument is truthy, and `""` is falsy. -/
theorem C10_empty_code_omitted (α : Type) (msg : String) (status : Nat) :
    apiError α msg status (some "") = apiError α msg status none := by
  simp [apiError, truthyCode]

theorem C10_witness :
    apiError Nat "conflict" 409 (some "") = apiError Nat "conflict" 409 none :=
  C10_empty_code_omitted Nat "conflict" 409

/-! ## CORS boundary (`src/lib/cors.ts`) -/

/-- A JavaScript `Headers` object, as a map from header name to value. -/
def HeaderMap : Type := String → Option String

/-- `headers.set(name, value)`. -/
def HeaderMap.set (h : HeaderMap) (name value : String) : HeaderMap :=
  fun k => if k = name then some value else h k

/-- A `Headers` object with no entries. -/
def HeaderMap.empty : HeaderMap := fun _ => none

/-- JavaScript truthiness of `request.headers.get("origin")`: `null` and
the empty string are falsy. -/
def truthyOrigin : Option String → Bool
  | none => false
  | some s => s != ""

/-- `ALLOWED_ORIGINS`: the two dev hosts plus the configured
`NEXT_PUBLIC_APP_URL` when present, with falsy entries dropped by
`.filter(Boolean)`. -/
def ALLOWED_ORIGINS (appUrl : Option String) : List String :=
  (["http://localhost:3000", "http://localhost:3001"] ++ appUrl.toList).filter
    (fun s => s != "")

def ALLOWED_METHODS : List String := ["GET", "POST", "PUT", "DELETE", "PATCH", "OPTIONS"]

def ALLOWED_HEADERS : List String :=
  ["Content-Type", "Authorization", "X-Requested-With", "Accept", "Origin"]

/-- The header writes `withCorsHeaders` performs on the headers of the
response it returns: conditionally echo the request origin, then set the
three fixed headers.  `isAllowedOrigin` is `!origin ||
ALLOWED_ORIGINS.includes(origin)` and the echo happens only when
`isAllowedOrigin && origin`, both with JavaScript truthiness. -/
def corsSetHeaders (appUrl origin : Option String) (h : HeaderMap) : HeaderMap :=
  let isAllowedOrigin : Bool :=
    !truthyOrigin origin || (ALLOWED_ORIGINS appUrl).contains (origin.getD "")
  let h1 :=
    if isAllowedOrigin && truthyOrigin origin then
      h.set "Access-Control-Allow-Origin" (origin.getD "")
    else h
  let h2 := h1.set "Access-Control-Allow-Methods" (String.intercalate ", " ALLOWED_METHODS)
  let h3 := h2.set "Access-Control-Allow-Headers" (String.intercalate ", " ALLOWED_HEADERS)
  h3.set "Access-Control-Max-Age" "86400"

/-- A `NextResponse` value: body, status, status text and headers. -/
structure NextResponse where
  body : Option String
  status : Nat
  statusText : String
  headers : HeaderMap

/-- `withCorsHeaders(request, response?)`: when a response is supplied,
the returned response copies its body, status, status text and headers
and applies the CORS header writes; when none is supplied, an empty 204
response is synthesized. -/
def withCorsHeaders (appUrl origin : Option String) (response : Option NextResponse) :
    NextResponse :=
  match response with
  | some r => ⟨r.body, r.status, r.statusText, corsSetHeaders appUrl origin r.headers⟩
  | none => ⟨none, 204, "", corsSetHeaders appUrl origin HeaderMap.empty⟩

theorem corsSetHeaders_spec (appUrl origin : Option String) (h : HeaderMap)
    (hclean : h "Access-Control-Allow-Origin" = none) :
    (∀ o, origin = some o → o ∈ ALLOWED_ORIGINS appUrl →
      corsSetHeaders appUrl origin h "Access-Control-Allow-Origin" = some o) ∧
    ((origin = none ∨ ∀ o, origin = some o → o ∉ ALLOWED_ORIGINS appUrl) →
      corsSetHeaders appUrl origin h "Access-Control-Allow-Origin" = none) ∧
    corsSetHeaders appUrl origin h "Access-Control-Allow-Methods" =
      some "GET, POST, PUT, DELETE, PATCH, OPTIONS" ∧
    corsSetHeaders appUrl origin h "Access-Control-Allow-Headers" =
      some "Content-Type, Authorization, X-Requested-With, Accept, Origin" ∧
    corsSetHeaders appUrl origin h "Access-Control-Max-Age" = some "86400" := by
  refine ⟨?_, ?_, ?_, ?_, ?_⟩
  · intro o ho hmem
    subst ho
    have hne : o ≠ "" := by
      intro he
      subst he
      have := (List.mem_filter.mp hmem).2
      simp at this
    have htruthy : truthyOrigin (some o) = true := by
      simp [truthyOrigin, hne]
    have hcont : (ALLOWED_ORIGINS appUrl).contains o = true := by
      simpa using hmem
    simp [corsSetHeaders, HeaderMap.set, htruthy, hcont, hmem]
  · intro hno
    rcases hno with rfl | hnotin
    · simp [corsSetHeaders, truthyOrigin, HeaderMap.set, hclean]
    · rcases horig : origin with _ | o
      · simp [corsSetHeaders, truthyOrigin, HeaderMap.set, hclean]
      · by_cases ho : o = ""
        · subst ho
          simp [corsSetHeaders, truthyOrigin, HeaderMap.set, hclean]
        · have hnotmem : o ∉ ALLOWED_ORIGINS appUrl := hnotin o horig
          have hcont : (ALLOWED_ORIGINS appUrl).contains o = false := by
            simpa using hnotmem
          have htruthy : truthyOrigin (some o) = true := by
            simp [truthyOrigin, ho]
          simp [corsSetHeaders, htruthy, hcont, hnotmem, HeaderMap.set, hclean]
  · simp [corsSetHeaders, HeaderMap.set]
    decide
  · simp [corsSetHeaders, HeaderMap.set]
    decide
  · simp [corsSetHeaders, HeaderMap.set]

/-- C5 counterexample: the claim says that whenever the request origin is
absent or not allow-listed, the returned response has no
`Access-Control-Allow-Origin` header — for every supplied response.  The
code copies the supplied response's headers wholesale, so a response that
already carries such a header keeps it even for a disallowed origin:
with no configured app URL, origin `http://evil.example` and a supplied
response already bearing `Access-Control-Allow-Origin:
http://evil.example`, the returned response still carries that header. -/
theorem C5_counterexample :
    ¬ (∀ (appUrl origin : Option String) (response : Option NextResponse),
        (origin = none ∨ ∀ o, origin = some o → o ∉ ALLOWED_ORIGINS appUrl) →
        (withCorsHeaders appUrl origin response).headers "Access-Control-Allow-Origin" =
          none) := by
  intro h
  have := h none (some "http://evil.example")
    (some ⟨none, 200, "", fun k =>
      if k = "Access-Control-Allow-Origin" then some "http://evil.example" else none⟩)
    (Or.inr (by
      intro o ho
      injection ho with h2
      subst h2
      decide))
  exact absurd this (by decide)

/-- C5 (amended): provided the supplied response does not already carry an
`Access-Control-Allow-Origin` header, the boundary echoes an allow-listed
request origin exactly (never a wildcard), leaves the header absent when
the origin is missing or not allow-listed, and in every case sets
`Access-Control-Allow-Methods` to
`GET, POST, PUT, DELETE, PATCH, OPTIONS`, the fixed
`Access-Control-Allow-Headers` value, and `Access-Control-Max-Age`
to 86400. -/
theorem C5_cors_headers (appUrl origin : Option String) (response : Option NextResponse)
    (hclean : ∀ r, response = some r → r.headers "Access-Control-Allow-Origin" = none) :
    (∀ o, origin = some o → o ∈ ALLOWED_ORIGINS appUrl →
      (withCorsHeaders appUrl origin response).headers "Access-Control-Allow-Origin" =
        some o) ∧
    ((origin = none ∨ ∀ o, origin = some o → o ∉ ALLOWED_ORIGINS appUrl) →
      (withCorsHeaders appUrl origin response).headers "Access-Control-Allow-Origin" =
        none) ∧
    (withCorsHeaders appUrl origin response).headers "Access-Control-Allow-Methods" =
      some "GET, POST, PUT, DELETE, PATCH, OPTIONS" ∧
    (withCorsHeaders appUrl origin response).headers "Access-Control-Allow-Headers" =
      some "Content-Type, Authorization, X-Requested-With, Accept, Origin" ∧
    (withCorsHeaders appUrl origin response).headers "Access-Control-Max-Age" =
      some "86400" := by
  cases response with
  | none => exact corsSetHeaders_spec appUrl origin HeaderMap.empty rfl
  | some r => exact corsSetHeaders_spec appUrl origin r.headers (hclean r rfl)

theorem C5_witness :
    (∀ o, (some "http://localhost:3000" : Option String) = some o →
      o ∈ ALLOWED_ORIGINS none →
      (withCorsHeaders none (some "http://localhost:3000")
          (some ⟨some "payload", 200, "OK", fun _ => none⟩)).headers
        "Access-Control-Allow-Origin" = some o) ∧
    (((some "http://localhost:3000" : Option String) = none ∨
        ∀ o, (some "http://localhost:3000" : Option String) = some o →
          o ∉ ALLOWED_ORIGINS none) →
      (withCorsHeaders none (some "http://localhost:3000")
          (some ⟨some "payload", 200, "OK", fun _ => none⟩)).headers
        "Access-Control-Allow-Origin" = none) ∧
    (withCorsHeaders none (some "http://localhost:3000")
        (some ⟨some "payload", 200, "OK", fun _ => none⟩)).headers
      "Access-Control-Allow-Methods" = some "GET, POST, PUT, DELETE, PATCH, OPTIONS" ∧
    (withCorsHeaders none (some "http://localhost:3000")
        (some ⟨some "payload", 200, "OK", fun _ => none⟩)).headers
      "Access-Control-Allow-Headers" =
        some "Content-Type, Authorization, X-Requested-With, Accept, Origin" ∧
    (withCorsHeaders none (some "http://localhost:3000")
        (some ⟨some "payload", 200, "OK", fun _ => none⟩)).headers
      "Access-Control-Max-Age" = some "86400" :=
  C5_cors_headers none (some "http://localhost:3000")
    (some ⟨some "payload", 200, "OK", fun _ => none⟩)
    (by
      intro r hr
      injection hr with h2
      subst h2
      rfl)

/-- A response whose `Headers` object lives in a heap of allocated
`Headers`, so that non-mutation of the supplied response can be stated. -/
structure HeapResponse where
  body : Option String
  status : Nat
  statusText : String
  headersRef : Nat

/-- The heap of allocated `Headers` objects: `next` is the next fresh
reference, `store` the contents of each allocated object. -/
structure HeaderHeap where
  next : Nat
  store : Nat → HeaderMap

/-- `withCorsHeaders(request, response)` on heap-allocated responses:
reads the supplied response's headers, allocates a fresh copy
(`new Headers(response.headers)`), applies the CORS header writes to the
copy only, and returns a new response object holding the copy.  The
supplied response object is never written to. -/
def withCorsHeadersHeap (appUrl origin : Option String) (r : HeapResponse)
    (heap : HeaderHeap) : HeapResponse × HeaderHeap :=
  (⟨r.body, r.status, r.statusText, heap.next⟩,
   ⟨heap.next + 1,
    fun n =>
      if n = heap.next then corsSetHeaders appUrl origin (heap.store r.headersRef)
      else heap.store n⟩)

/-- C7: the CORS boundary never mutates the supplied response: its headers
object is unchanged in the heap and its value fields are untouched; the
returned response is a distinct object (fresh headers reference) with the
same status, status text and body, and the CORS headers are applied to
the copy only. -/
theorem C7_no_mutation (appUrl origin : Option String) (r : HeapResponse)
    (heap : HeaderHeap) (hvalid : r.headersRef < heap.next) :
    (withCorsHeadersHeap appUrl origin r heap).2.store r.headersRef =
      heap.store r.headersRef ∧
    (withCorsHeadersHeap appUrl origin r heap).1.headersRef ≠ r.headersRef ∧
    (withCorsHeadersHeap appUrl origin r heap).1.status = r.status ∧
    (withCorsHeadersHeap appUrl origin r heap).1.statusText = r.statusText ∧
    (withCorsHeadersHeap appUrl origin r heap).1.body = r.body ∧
    (withCorsHeadersHeap appUrl origin r heap).2.store
        (withCorsHeadersHeap appUrl origin r heap).1.headersRef =
      corsSetHeaders appUrl origin (heap.store r.headersRef) := by
  refine ⟨?_, ?_, rfl, rfl, rfl, ?_⟩
  · have hne : r.headersRef ≠ heap.next := by omega
    simp [withCorsHeadersHeap, hne]
  · show heap.next ≠ r.headersRef
    omega
  · simp [withCorsHeadersHeap]

theorem C7_witness :
    (withCorsHeadersHeap none none ⟨some "payload", 201, "Created", 0⟩
        ⟨1, fun _ => HeaderMap.empty⟩).2.store 0 =
      (⟨1, fun _ => HeaderMap.empty⟩ : HeaderHeap).store 0 ∧
    (withCorsHeadersHeap none none ⟨some "payload", 201, "Created", 0⟩
        ⟨1, fun _ => HeaderMap.empty⟩).1.headersRef ≠ 0 ∧
    (withCorsHeadersHeap none none ⟨some "payload", 201, "Created", 0⟩
        ⟨1, fun _ => HeaderMap.empty⟩).1.status = 201 ∧
    (withCorsHeadersHeap none none ⟨some "payload", 201, "Created", 0⟩
        ⟨1, fun _ => HeaderMap.empty⟩).1.statusText = "Created" ∧
    (withCorsHeadersHeap none none ⟨some "payload", 201, "Created", 0⟩
        ⟨1, fun _ => HeaderMap.empty⟩).1.body = some "payload" ∧
    (withCorsHeadersHeap none none ⟨some "payload", 201, "Created", 0⟩
        ⟨1, fun _ => HeaderMap.empty⟩).2.store
        (withCorsHeadersHeap none none ⟨some "payload", 201, "Created", 0⟩
          ⟨1, fun _ => HeaderMap.empty⟩).1.headersRef =
      corsSetHeaders none none
        ((⟨1, fun _ => HeaderMap.empty⟩ : HeaderHeap).store 0) :=
  C7_no_mutation none none ⟨some "payload", 201, "Created", 0⟩
    ⟨1, fun _ => HeaderMap.empty⟩ (by decide)

end LinkShortener
